import Mathlib

/-!
Shallow embedding of `src/components/analytics/funnel_dashboard.py`
(funnel aggregation core) and verification of its specification.

The Python source computes funnel metrics over a list of session records.
We translate the data model and the pure aggregation functions:
`calculate_funnel_metrics` (lines 156-230), the abandonment classification
chain inside `display_abandonment_analysis` (lines 336-347), and the
per-property counting loop inside `display_property_comparison`
(lines 364-382).  Python dicts keyed by the five stages become functions
`Stage → _`; the `conversion_rates` dict (whose key set is data-dependent)
becomes an association list; float division becomes exact division in `ℚ`;
the empty-input early return `return {}` becomes `none`.
-/

/-- The five funnel stages, in the order of `STAGE_ORDER` (source lines 41-47). -/
inductive Stage where
  | widget_activation
  | search_configuration
  | room_selection
  | rate_selection
  | booking_completion
deriving DecidableEq, Repr

/-- Position of a stage in `STAGE_ORDER` (`STAGE_ORDER.index`, source line 187). -/
def stageIndex : Stage → Nat
  | .widget_activation => 0
  | .search_configuration => 1
  | .room_selection => 2
  | .rate_selection => 3
  | .booking_completion => 4

/-- The fixed stage order list (source lines 41-47). -/
def STAGE_ORDER : List Stage :=
  [.widget_activation, .search_configuration, .room_selection,
   .rate_selection, .booking_completion]

/-- One session record as consumed by the aggregation loop (the row shape
produced by the query, source lines 122-147).  `furthest_stage` is `none`
for the `'unknown'` value (and for any string outside `STAGE_ORDER`, which
the aggregator treats identically). -/
structure Session where
  session_id : String
  user_id : String
  property_id : String
  furthest_stage : Option Stage
  is_completed : Bool
  is_abandoned : Bool
  duration_seconds : Int
  navigation_backs : Nat
  minimizes : Nat
  total_events : Nat
deriving DecidableEq, Repr

/-- The mutable accumulators of the loop in `calculate_funnel_metrics`
(source lines 161-169). -/
structure FunnelCounts where
  stage_entries : Stage → Nat
  stage_completions : Stage → Nat
  stage_abandonments : Stage → Nat
  stage_durations : Stage → List Int
  navigation_by_stage : Stage → Nat
  total_completed : Nat
  total_abandoned : Nat

/-- Initial accumulator values (source lines 161-169). -/
def initCounts : FunnelCounts where
  stage_entries := fun _ => 0
  stage_completions := fun _ => 0
  stage_abandonments := fun _ => 0
  stage_durations := fun _ => []
  navigation_by_stage := fun _ => 0
  total_completed := 0
  total_abandoned := 0

/-- One iteration of the session loop (source lines 171-196).
`furthest_stage in stage_abandonments` and `furthest_stage in STAGE_ORDER`
both mean "the stage is one of the five known stages", i.e. `isSome` here.
The range fill `for i in range(stage_index + 1)` increments exactly the
stages whose index is `≤` the session's stage index. -/
def processSession (c : FunnelCounts) (s : Session) : FunnelCounts :=
  let c1 :=
    if s.is_completed then
      { c with total_completed := c.total_completed + 1 }
    else c
  let c2 :=
    if s.is_abandoned then
      { c1 with
        total_abandoned := c1.total_abandoned + 1
        stage_abandonments := fun t =>
          c1.stage_abandonments t +
            (match s.furthest_stage with
             | some st => if t = st then 1 else 0
             | none => 0) }
    else c1
  match s.furthest_stage with
  | some st =>
      { c2 with
        stage_entries := fun t =>
          c2.stage_entries t + (if stageIndex t ≤ stageIndex st then 1 else 0)
        stage_completions := fun t =>
          c2.stage_completions t +
            (if s.is_completed ∧ stageIndex t ≤ stageIndex st then 1 else 0)
        stage_durations := fun t =>
          if t = st then c2.stage_durations t ++ [s.duration_seconds]
          else c2.stage_durations t
        navigation_by_stage := fun t =>
          c2.navigation_by_stage t +
            (if t = st ∧ 0 < s.navigation_backs then s.navigation_backs else 0) }
  | none => c2

/-- The full loop over the session list (source lines 171-196). -/
def funnelCounts (sessions : List Session) : FunnelCounts :=
  sessions.foldl processSession initCounts

/-- Adjacent stage pairs iterated by the conversion-rate loop
(source lines 200-202: `STAGE_ORDER[i]`, `STAGE_ORDER[i+1]`). -/
def adjacentStagePairs : List (Stage × Stage) :=
  STAGE_ORDER.zip STAGE_ORDER.tail

/-- The `conversion_rates` dict (source lines 199-206): an entry for an
adjacent pair exists only when the from-stage entry count is positive. -/
def conversionRatesOf (entries : Stage → Nat) : List ((Stage × Stage) × ℚ) :=
  adjacentStagePairs.filterMap fun pr =>
    if 0 < entries pr.1 then
      some (pr, (entries pr.2 : ℚ) / (entries pr.1 : ℚ))
    else none

/-- The dict returned by `calculate_funnel_metrics` (source lines 219-230). -/
structure FunnelMetrics where
  total_sessions : Nat
  completed_sessions : Nat
  abandoned_sessions : Nat
  overall_conversion : ℚ
  stage_entries : Stage → Nat
  stage_completions : Stage → Nat
  stage_abandonments : Stage → Nat
  conversion_rates : List ((Stage × Stage) × ℚ)
  avg_durations : Stage → Option ℚ
  navigation_by_stage : Stage → Nat

/-- The metrics built in the non-empty branch of `calculate_funnel_metrics`
(source lines 161-230). -/
def mkMetrics (sessions : List Session) : FunnelMetrics :=
  let c := funnelCounts sessions
  { total_sessions := sessions.length
    completed_sessions := c.total_completed
    abandoned_sessions := c.total_abandoned
    overall_conversion :=
      if 0 < c.stage_entries .widget_activation then
        (c.total_completed : ℚ) / (c.stage_entries .widget_activation : ℚ)
      else 0
    stage_entries := c.stage_entries
    stage_completions := c.stage_completions
    stage_abandonments := c.stage_abandonments
    conversion_rates := conversionRatesOf c.stage_entries
    avg_durations := fun st =>
      match c.stage_durations st with
      | [] => none
      | ds => some ((ds.sum : ℚ) / (ds.length : ℚ))
    navigation_by_stage := c.navigation_by_stage }

/-- `calculate_funnel_metrics` (source lines 156-230).  The source returns
the empty dict `{}` on an empty session list (lines 158-159); we model that
early return as `none`. -/
def calculate_funnel_metrics (sessions : List Session) : Option FunnelMetrics :=
  if sessions.isEmpty then none else some (mkMetrics sessions)

/-- Abandonment reason categories (source lines 340-347). -/
inductive ReasonCategory where
  | excessive_navigation
  | quick_bounce
  | low_engagement
  | other_timeout
deriving DecidableEq, Repr

/-- The per-session classification chain inside `display_abandonment_analysis`
(source lines 340-347), applied to each abandoned session. -/
def classify_abandonment (s : Session) : ReasonCategory :=
  if 3 < s.navigation_backs then .excessive_navigation
  else if s.duration_seconds < 30 then .quick_bounce
  else if s.total_events < 5 then .low_engagement
  else .other_timeout

/-- Per-property accumulator of `display_property_comparison`
(source lines 364-369). -/
structure PropertyMetrics where
  sessions : Nat
  completions : Nat
  abandonments : Nat
  stages : Stage → Nat

/-- The defaultdict initial value (source lines 364-369). -/
def initPropertyMetrics : PropertyMetrics where
  sessions := 0
  completions := 0
  abandonments := 0
  stages := fun _ => 0

/-- One iteration of the property-comparison loop (source lines 371-382). -/
def updatePropertyMetrics (m : String → PropertyMetrics) (s : Session) :
    String → PropertyMetrics := fun p =>
  if p = s.property_id then
    { sessions := (m p).sessions + 1
      completions := (m p).completions + (if s.is_completed then 1 else 0)
      abandonments := (m p).abandonments + (if s.is_abandoned then 1 else 0)
      stages := fun t =>
        (m p).stages t +
          (match s.furthest_stage with
           | some st => if t = st then 1 else 0
           | none => 0) }
  else m p

/-- The `property_metrics` mapping built by `display_property_comparison`
(source lines 364-382), viewed as a total function with the defaultdict
default outside the observed keys. -/
def property_metrics (sessions : List Session) : String → PropertyMetrics :=
  sessions.foldl updatePropertyMetrics (fun _ => initPropertyMetrics)

/-- Sum of per-property session counts over the keys actually present in the
`property_metrics` dict (the distinct property ids of the input). -/
def property_session_sum (sessions : List Session) : Nat :=
  ((sessions.map fun s => s.property_id).dedup.map
    fun p => (property_metrics sessions p).sessions).sum

/-! ### Step lemmas: pointwise effect of one loop iteration -/

theorem processSession_stage_entries (c : FunnelCounts) (s : Session) :
    (processSession c s).stage_entries = fun t =>
      c.stage_entries t +
        (match s.furthest_stage with
         | some st => if stageIndex t ≤ stageIndex st then 1 else 0
         | none => 0) := by
  cases hc : s.is_completed <;> cases ha : s.is_abandoned <;>
    cases hf : s.furthest_stage <;> simp [processSession, hc, ha, hf]

theorem processSession_stage_completions (c : FunnelCounts) (s : Session) :
    (processSession c s).stage_completions = fun t =>
      c.stage_completions t +
        (match s.furthest_stage with
         | some st => if s.is_completed ∧ stageIndex t ≤ stageIndex st then 1 else 0
         | none => 0) := by
  cases hc : s.is_completed <;> cases ha : s.is_abandoned <;>
    cases hf : s.furthest_stage <;> simp [processSession, hc, ha, hf]

theorem processSession_stage_abandonments (c : FunnelCounts) (s : Session) :
    (processSession c s).stage_abandonments = fun t =>
      c.stage_abandonments t +
        (if s.is_abandoned then
          (match s.furthest_stage with
           | some st => if t = st then 1 else 0
           | none => 0)
         else 0) := by
  cases hc : s.is_completed <;> cases ha : s.is_abandoned <;>
    cases hf : s.furthest_stage <;> simp [processSession, hc, ha, hf]

theorem processSession_stage_durations (c : FunnelCounts) (s : Session) :
    (processSession c s).stage_durations = fun t =>
      match s.furthest_stage with
      | some st =>
          if t = st then c.stage_durations t ++ [s.duration_seconds]
          else c.stage_durations t
      | none => c.stage_durations t := by
  cases hc : s.is_completed <;> cases ha : s.is_abandoned <;>
    cases hf : s.furthest_stage <;> simp [processSession, hc, ha, hf]

theorem processSession_navigation_by_stage (c : FunnelCounts) (s : Session) :
    (processSession c s).navigation_by_stage = fun t =>
      c.navigation_by_stage t +
        (match s.furthest_stage with
         | some st =>
             if t = st ∧ 0 < s.navigation_backs then s.navigation_backs else 0
         | none => 0) := by
  cases hc : s.is_completed <;> cases ha : s.is_abandoned <;>
    cases hf : s.furthest_stage <;> simp [processSession, hc, ha, hf]

theorem processSession_total_completed (c : FunnelCounts) (s : Session) :
    (processSession c s).total_completed =
      c.total_completed + (if s.is_completed then 1 else 0) := by
  cases hc : s.is_completed <;> cases ha : s.is_abandoned <;>
    cases hf : s.furthest_stage <;> simp [processSession, hc, ha, hf]

theorem processSession_total_abandoned (c : FunnelCounts) (s : Session) :
    (processSession c s).total_abandoned =
      c.total_abandoned + (if s.is_abandoned then 1 else 0) := by
  cases hc : s.is_completed <;> cases ha : s.is_abandoned <;>
    cases hf : s.furthest_stage <;> simp [processSession, hc, ha, hf]

/-! ### Inversion of the entry point and funnel monotonicity -/

theorem calculate_funnel_metrics_some {sessions : List Session} {m : FunnelMetrics}
    (h : calculate_funnel_metrics sessions = some m) : m = mkMetrics sessions := by
  unfold calculate_funnel_metrics at h
  split at h
  · exact absurd h (by simp)
  · exact (Option.some_injective _ h).symm

/-- The funnel-shape invariant: entry counts ordered opposite to stage order. -/
def EntriesMono (e : Stage → Nat) : Prop :=
  ∀ s t : Stage, stageIndex s ≤ stageIndex t → e t ≤ e s

theorem entriesMono_processSession {c : FunnelCounts} (s : Session)
    (h : EntriesMono c.stage_entries) :
    EntriesMono (processSession c s).stage_entries := by
  intro a b hab
  rw [processSession_stage_entries]
  cases hf : s.furthest_stage with
  | none => simpa using h a b hab
  | some st =>
      simp only
      have hind : (if stageIndex b ≤ stageIndex st then 1 else 0) ≤
          (if stageIndex a ≤ stageIndex st then 1 else 0) := by
        by_cases hb : stageIndex b ≤ stageIndex st
        · rw [if_pos hb, if_pos (le_trans hab hb)]
        · simp [hb]
      exact Nat.add_le_add (h a b hab) hind

theorem entriesMono_foldl (sessions : List Session) :
    ∀ c : FunnelCounts, EntriesMono c.stage_entries →
      EntriesMono (sessions.foldl processSession c).stage_entries := by
  induction sessions with
  | nil => intro c hc; simpa using hc
  | cons s rest ih =>
      intro c hc
      exact ih (processSession c s) (entriesMono_processSession s hc)

theorem entriesMono_funnelCounts (sessions : List Session) :
    EntriesMono (funnelCounts sessions).stage_entries :=
  entriesMono_foldl sessions initCounts (fun _ _ _ => le_refl 0)

theorem adjacent_pairs_ordered :
    ∀ pr ∈ adjacentStagePairs, stageIndex pr.1 ≤ stageIndex pr.2 := by decide

/-! ### Concrete sessions used in counterexamples and witnesses -/

/-- Build a session record from the fields the aggregator reads. -/
def sessionOf (fs : Option Stage) (comp aband : Bool) (dur : Int)
    (nav ev : Nat) (prop : String) : Session where
  session_id := "s"
  user_id := "u"
  property_id := prop
  furthest_stage := fs
  is_completed := comp
  is_abandoned := aband
  duration_seconds := dur
  navigation_backs := nav
  minimizes := 0
  total_events := ev

/-- A session that stops at widget activation. -/
def widgetOnlySession : Session :=
  sessionOf (some .widget_activation) false false 10 0 3 "p1"

/-- A completed session whose furthest stage is unknown. -/
def unknownCompletedSession : Session :=
  sessionOf none true false 10 0 3 "p1"

/-- A completed session whose furthest stage is widget activation. -/
def widgetCompletedSession : Session :=
  sessionOf (some .widget_activation) true false 10 0 3 "p1"

/-! ### C1: behaviour on the empty session list -/

/-- C1 counterexample: `calculate_funnel_metrics` applied to the empty list
does not return any metrics object at all — the source hits the early
`return {}` (modelled `none`), so there is no object with `totalSessions = 0`. -/
theorem C1_empty_input_returns_no_metrics :
    (calculate_funnel_metrics []).isSome = false := rfl

/-- C1 amended: on the empty list `calculate_funnel_metrics` raises no error
but returns the empty dict (modelled `none`) rather than a zeroed metrics
object; the counter pass over the empty list does leave every counter at 0. -/
theorem C1_empty_input_none_and_zero_counters :
    calculate_funnel_metrics [] = none ∧
    (funnelCounts []).total_completed = 0 ∧
    (funnelCounts []).total_abandoned = 0 ∧
    ∀ st : Stage,
      (funnelCounts []).stage_entries st = 0 ∧
      (funnelCounts []).stage_completions st = 0 ∧
      (funnelCounts []).stage_abandonments st = 0 :=
  ⟨rfl, rfl, rfl, fun _ => ⟨rfl, rfl, rfl⟩⟩

/-! ### C2: stage entries are non-increasing along stage order -/

/-- C2: for every input list on which `calculate_funnel_metrics` returns a
metrics object, `stage_entries` is non-increasing along the fixed stage
order: for each adjacent pair the later stage has at most as many entries. -/
theorem C2_stage_entries_nonincreasing (sessions : List Session)
    (m : FunnelMetrics) (h : calculate_funnel_metrics sessions = some m) :
    ∀ pr ∈ adjacentStagePairs, m.stage_entries pr.2 ≤ m.stage_entries pr.1 := by
  intro pr hpr
  have hm := calculate_funnel_metrics_some h
  subst hm
  exact entriesMono_funnelCounts sessions pr.1 pr.2 (adjacent_pairs_ordered pr hpr)

/-- C2 witness at a concrete one-session input. -/
theorem C2_stage_entries_nonincreasing_witness :
    (mkMetrics [widgetOnlySession]).stage_entries Stage.search_configuration ≤
      (mkMetrics [widgetOnlySession]).stage_entries Stage.widget_activation :=
  C2_stage_entries_nonincreasing [widgetOnlySession] (mkMetrics [widgetOnlySession])
    rfl (Stage.widget_activation, Stage.search_configuration) (by decide)

/-! ### Field views of `mkMetrics` -/

theorem mkMetrics_total_sessions (sessions : List Session) :
    (mkMetrics sessions).total_sessions = sessions.length := rfl

theorem mkMetrics_completed_sessions (sessions : List Session) :
    (mkMetrics sessions).completed_sessions = (funnelCounts sessions).total_completed := rfl

theorem mkMetrics_stage_entries (sessions : List Session) :
    (mkMetrics sessions).stage_entries = (funnelCounts sessions).stage_entries := rfl

theorem mkMetrics_conversion_rates (sessions : List Session) :
    (mkMetrics sessions).conversion_rates =
      conversionRatesOf (funnelCounts sessions).stage_entries := rfl

theorem mkMetrics_overall_conversion (sessions : List Session) :
    (mkMetrics sessions).overall_conversion =
      (if 0 < (funnelCounts sessions).stage_entries .widget_activation then
        ((funnelCounts sessions).total_completed : ℚ) /
          ((funnelCounts sessions).stage_entries .widget_activation : ℚ)
      else 0) := rfl

/-! ### C3: conversion-rate entries and zero denominators -/

/-- C3 counterexample: on a single widget-only session the conversion-rate
dict has exactly one key, `widget_activation → search_configuration`; the
pairs with zero from-stage entries (e.g. `search_configuration →
room_selection`) are absent, not present with value 0. -/
theorem C3_zero_denominator_key_absent :
    ((calculate_funnel_metrics [widgetOnlySession]).map fun m =>
        m.conversion_rates.map Prod.fst) =
      some [(Stage.widget_activation, Stage.search_configuration)] := by decide

/-- C3 amended: the conversion-rate dict contains an entry for an adjacent
pair exactly when the from-stage entry count is positive, with value
to-entries / from-entries; when the from-stage count is 0 the pair is
absent from the dict (downstream readers default it to 0 on lookup). -/
theorem C3_conversion_rate_presence (sessions : List Session)
    (m : FunnelMetrics) (h : calculate_funnel_metrics sessions = some m) :
    ∀ pr ∈ adjacentStagePairs,
      (0 < m.stage_entries pr.1 →
        (pr, (m.stage_entries pr.2 : ℚ) / (m.stage_entries pr.1 : ℚ)) ∈
          m.conversion_rates) ∧
      (m.stage_entries pr.1 = 0 → ∀ q : ℚ, (pr, q) ∉ m.conversion_rates) := by
  intro pr hpr
  have hm := calculate_funnel_metrics_some h
  subst hm
  rw [mkMetrics_conversion_rates, mkMetrics_stage_entries]
  constructor
  · intro hpos
    exact List.mem_filterMap.mpr ⟨pr, hpr, by rw [if_pos hpos]⟩
  · intro h0 q hq
    obtain ⟨x, _, hxeq⟩ := List.mem_filterMap.mp hq
    by_cases hx1 : 0 < (funnelCounts sessions).stage_entries x.1
    · rw [if_pos hx1] at hxeq
      have hxpr : x = pr := congrArg Prod.fst (Option.some_injective _ hxeq)
      rw [hxpr, h0] at hx1
      exact absurd hx1 (lt_irrefl 0)
    · rw [if_neg hx1] at hxeq
      exact Option.noConfusion hxeq

/-- C3 witness at a concrete one-session input. -/
theorem C3_conversion_rate_presence_witness :
    ((Stage.widget_activation, Stage.search_configuration),
        ((mkMetrics [widgetOnlySession]).stage_entries Stage.search_configuration : ℚ) /
          ((mkMetrics [widgetOnlySession]).stage_entries Stage.widget_activation : ℚ)) ∈
      (mkMetrics [widgetOnlySession]).conversion_rates :=
  (C3_conversion_rate_presence [widgetOnlySession] (mkMetrics [widgetOnlySession]) rfl
      (Stage.widget_activation, Stage.search_configuration) (by decide)).1 (by decide)

/-! ### C4: all conversion-rate values lie in the unit interval -/

/-- C4: every value present in the conversion-rate dict lies in `[0, 1]`. -/
theorem C4_conversion_rates_unit_interval (sessions : List Session)
    (m : FunnelMetrics) (h : calculate_funnel_metrics sessions = some m) :
    ∀ (pr : Stage × Stage) (q : ℚ), (pr, q) ∈ m.conversion_rates →
      0 ≤ q ∧ q ≤ 1 := by
  intro pr q hq
  have hm := calculate_funnel_metrics_some h
  subst hm
  rw [mkMetrics_conversion_rates] at hq
  obtain ⟨x, hx, hxeq⟩ := List.mem_filterMap.mp hq
  by_cases hx1 : 0 < (funnelCounts sessions).stage_entries x.1
  · rw [if_pos hx1] at hxeq
    have hq2 : q = ((funnelCounts sessions).stage_entries x.2 : ℚ) /
        ((funnelCounts sessions).stage_entries x.1 : ℚ) :=
      (congrArg Prod.snd (Option.some_injective _ hxeq)).symm
    subst hq2
    refine ⟨div_nonneg (Nat.cast_nonneg _) (Nat.cast_nonneg _), ?_⟩
    rw [div_le_one (by exact_mod_cast hx1)]
    exact_mod_cast entriesMono_funnelCounts sessions x.1 x.2 (adjacent_pairs_ordered x hx)
  · rw [if_neg hx1] at hxeq
    exact Option.noConfusion hxeq

/-- C4 witness at a concrete one-session input. -/
theorem C4_conversion_rates_unit_interval_witness :
    0 ≤ (0 : ℚ) ∧ (0 : ℚ) ≤ 1 :=
  C4_conversion_rates_unit_interval [widgetOnlySession] (mkMetrics [widgetOnlySession]) rfl
    (Stage.widget_activation, Stage.search_configuration) 0
    (by
      have h1 : (mkMetrics [widgetOnlySession]).conversion_rates =
          [((Stage.widget_activation, Stage.search_configuration), 0)] := by
        simp +decide [mkMetrics, funnelCounts, processSession, initCounts,
          conversionRatesOf, adjacentStagePairs, STAGE_ORDER, stageIndex,
          widgetOnlySession, sessionOf, List.filterMap_cons]
      rw [h1]
      exact List.mem_singleton.mpr rfl)

/-! ### C5: overall conversion formula and range -/

/-- C5 counterexample: two sessions — one completed with unknown furthest
stage, one completed at widget activation — give
`overall_conversion = 2/1 = 2 > 1`, outside `[0, 1]`. -/
theorem C5_overall_conversion_can_exceed_one :
    ((calculate_funnel_metrics [unknownCompletedSession, widgetCompletedSession]).map
        fun m => m.overall_conversion) = some 2 ∧ (1 : ℚ) < 2 := by
  constructor
  · norm_num [calculate_funnel_metrics, mkMetrics, funnelCounts, processSession,
      initCounts, unknownCompletedSession, widgetCompletedSession, sessionOf,
      stageIndex]
  · norm_num

/-- C5 amended: `overall_conversion` equals
`completed_sessions / stage_entries[widget_activation]` (0 when the
denominator is 0) and is non-negative; it lies in `[0, 1]` whenever
`completed_sessions ≤ stage_entries[widget_activation]` (in particular when
no completed session has an unknown furthest stage), but can exceed 1 when
completed sessions with unknown stage inflate the numerator. -/
theorem C5_overall_conversion_formula (sessions : List Session)
    (m : FunnelMetrics) (h : calculate_funnel_metrics sessions = some m) :
    m.overall_conversion =
      (if 0 < m.stage_entries Stage.widget_activation then
        (m.completed_sessions : ℚ) / (m.stage_entries Stage.widget_activation : ℚ)
      else 0) ∧
    0 ≤ m.overall_conversion ∧
    (m.completed_sessions ≤ m.stage_entries Stage.widget_activation →
      m.overall_conversion ≤ 1) := by
  have hm := calculate_funnel_metrics_some h
  subst hm
  rw [mkMetrics_overall_conversion, mkMetrics_completed_sessions, mkMetrics_stage_entries]
  refine ⟨rfl, ?_, ?_⟩
  · by_cases hpos : 0 < (funnelCounts sessions).stage_entries .widget_activation
    · rw [if_pos hpos]
      exact div_nonneg (Nat.cast_nonneg _) (Nat.cast_nonneg _)
    · rw [if_neg hpos]
  · intro hle
    by_cases hpos : 0 < (funnelCounts sessions).stage_entries .widget_activation
    · rw [if_pos hpos, div_le_one (by exact_mod_cast hpos)]
      exact_mod_cast hle
    · rw [if_neg hpos]
      exact zero_le_one

/-- C5 witness at a concrete one-session input. -/
theorem C5_overall_conversion_formula_witness :
    (mkMetrics [widgetCompletedSession]).overall_conversion ≤ 1 :=
  (C5_overall_conversion_formula [widgetCompletedSession]
      (mkMetrics [widgetCompletedSession]) rfl).2.2 (by decide)

/-! ### C6: abandonment classification priority order -/

/-- The spec example: abandoned at rate selection, 0 navigation backs,
10 seconds duration, 2 events. -/
def quickBounceExampleSession : Session :=
  sessionOf (some .rate_selection) false true 10 0 2 "p1"

/-- An abandoned session with more than 3 navigation backs. -/
def excessiveNavSession : Session :=
  sessionOf (some .room_selection) false true 100 5 9 "p1"

/-- C6: the classification chain applies its rules in fixed priority order
with first match winning — excessive navigation, then quick bounce, then
low engagement, then other/timeout — and the spec example (0 backs,
10 seconds, 2 events) is classified quick bounce. -/
theorem C6_classification_priority_order :
    (∀ s : Session, 3 < s.navigation_backs →
        classify_abandonment s = ReasonCategory.excessive_navigation) ∧
    (∀ s : Session, s.navigation_backs ≤ 3 → s.duration_seconds < 30 →
        classify_abandonment s = ReasonCategory.quick_bounce) ∧
    (∀ s : Session, s.navigation_backs ≤ 3 → 30 ≤ s.duration_seconds →
        s.total_events < 5 →
        classify_abandonment s = ReasonCategory.low_engagement) ∧
    (∀ s : Session, s.navigation_backs ≤ 3 → 30 ≤ s.duration_seconds →
        5 ≤ s.total_events →
        classify_abandonment s = ReasonCategory.other_timeout) ∧
    classify_abandonment quickBounceExampleSession = ReasonCategory.quick_bounce := by
  refine ⟨?_, ?_, ?_, ?_, by decide⟩
  · intro s h1
    unfold classify_abandonment
    rw [if_pos h1]
  · intro s h1 h2
    unfold classify_abandonment
    rw [if_neg (by omega), if_pos h2]
  · intro s h1 h2 h3
    unfold classify_abandonment
    rw [if_neg (by omega), if_neg (by omega), if_pos h3]
  · intro s h1 h2 h3
    unfold classify_abandonment
    rw [if_neg (by omega), if_neg (by omega), if_neg (by omega)]

/-- C6 witness: the first rule fires on a concrete session. -/
theorem C6_classification_priority_order_witness :
    classify_abandonment excessiveNavSession = ReasonCategory.excessive_navigation :=
  C6_classification_priority_order.1 excessiveNavSession (by decide)

/-! ### C7: unknown-stage sessions touch only the scalar totals -/

/-- A completed-and-abandoned session with unknown furthest stage. -/
def unknownBothFlagsSession : Session :=
  sessionOf none true true 10 2 3 "p1"

/-- C7: a session with unknown furthest stage leaves every stage-keyed
accumulator (entries, completions, abandonments, durations, navigation)
unchanged while still updating the completed/abandoned totals according to
its flags, and it is counted in `total_sessions`. -/
theorem C7_unknown_stage_only_totals :
    (∀ (c : FunnelCounts) (s : Session), s.furthest_stage = none →
      (processSession c s).stage_entries = c.stage_entries ∧
      (processSession c s).stage_completions = c.stage_completions ∧
      (processSession c s).stage_abandonments = c.stage_abandonments ∧
      (processSession c s).stage_durations = c.stage_durations ∧
      (processSession c s).navigation_by_stage = c.navigation_by_stage ∧
      (processSession c s).total_completed =
        c.total_completed + (if s.is_completed then 1 else 0) ∧
      (processSession c s).total_abandoned =
        c.total_abandoned + (if s.is_abandoned then 1 else 0)) ∧
    (∀ (sessions : List Session) (m : FunnelMetrics),
      calculate_funnel_metrics sessions = some m →
        m.total_sessions = sessions.length) := by
  constructor
  · intro c s hf
    refine ⟨?_, ?_, ?_, ?_, ?_, ?_, ?_⟩
    · rw [processSession_stage_entries]; funext t; simp [hf]
    · rw [processSession_stage_completions]; funext t; simp [hf]
    · rw [processSession_stage_abandonments]; funext t; simp [hf]
    · rw [processSession_stage_durations]; funext t; simp [hf]
    · rw [processSession_navigation_by_stage]; funext t; simp [hf]
    · rw [processSession_total_completed]
    · rw [processSession_total_abandoned]
  · intro sessions m h
    rw [calculate_funnel_metrics_some h, mkMetrics_total_sessions]

/-- C7 witness at a concrete accumulator and session. -/
theorem C7_unknown_stage_only_totals_witness :
    (processSession initCounts unknownBothFlagsSession).stage_entries =
      initCounts.stage_entries ∧
    (mkMetrics [unknownBothFlagsSession]).total_sessions = 1 :=
  ⟨(C7_unknown_stage_only_totals.1 initCounts unknownBothFlagsSession rfl).1,
   C7_unknown_stage_only_totals.2 [unknownBothFlagsSession]
     (mkMetrics [unknownBothFlagsSession]) rfl⟩

/-! ### C8: the 10-session overall-conversion example -/

/-- Ten sessions: five enter widget activation (four stop there, one goes on
to complete booking) and five have unknown furthest stage. -/
def tenSessionExample : List Session :=
  [sessionOf (some .widget_activation) false true 10 0 3 "p1",
   sessionOf (some .widget_activation) false true 12 0 3 "p1",
   sessionOf (some .widget_activation) false false 14 0 3 "p2",
   sessionOf (some .widget_activation) false false 16 0 3 "p2",
   sessionOf (some .booking_completion) true false 300 1 12 "p1",
   sessionOf none false false 1 0 1 "p1",
   sessionOf none false false 1 0 1 "p2",
   sessionOf none false false 1 0 1 "p3",
   sessionOf none false false 1 0 1 "p3",
   sessionOf none false false 1 0 1 "p3"]

/-- C8: on the ten-session example — 5 sessions reach widget activation
(one of them completing booking), the rest unknown — the metrics give
5 widget entries, 1 completion, and `overall_conversion = 1/5 = 0.20`. -/
theorem C8_overall_conversion_one_fifth :
    ((calculate_funnel_metrics tenSessionExample).map fun m => m.total_sessions) =
        some 10 ∧
    ((calculate_funnel_metrics tenSessionExample).map fun m =>
        m.stage_entries Stage.widget_activation) = some 5 ∧
    ((calculate_funnel_metrics tenSessionExample).map fun m =>
        m.completed_sessions) = some 1 ∧
    ((calculate_funnel_metrics tenSessionExample).map fun m =>
        m.overall_conversion) = some (1 / 5) := by
  refine ⟨by decide, by decide, by decide, ?_⟩
  have h1 : (funnelCounts tenSessionExample).stage_entries .widget_activation = 5 := by
    decide
  have h2 : (funnelCounts tenSessionExample).total_completed = 1 := by decide
  have h3 : calculate_funnel_metrics tenSessionExample =
      some (mkMetrics tenSessionExample) := rfl
  rw [h3]
  show some (mkMetrics tenSessionExample).overall_conversion = some (1 / 5)
  rw [mkMetrics_overall_conversion, h1, h2]
  norm_num

/-! ### C9: per-property session counts partition the total -/

theorem foldl_updateProperty_sessions (sessions : List Session) :
    ∀ (m : String → PropertyMetrics) (p : String),
      ((sessions.foldl updatePropertyMetrics m) p).sessions =
        (m p).sessions + (sessions.map fun s => s.property_id).count p := by
  induction sessions with
  | nil => intro m p; simp
  | cons s rest ih =>
      intro m p
      rw [List.foldl_cons, ih]
      by_cases hp : p = s.property_id
      · simp [updatePropertyMetrics, hp, List.count_cons]; omega
      · simp [updatePropertyMetrics, hp, List.count_cons, Ne.symm hp]

theorem property_metrics_sessions_count (sessions : List Session) (p : String) :
    (property_metrics sessions p).sessions =
      (sessions.map fun s => s.property_id).count p := by
  unfold property_metrics
  rw [foldl_updateProperty_sessions]
  simp [initPropertyMetrics]

/-- C9: the per-property session counts of the property-comparison loop,
summed over the distinct property ids of the input, equal the
`total_sessions` of the ungrouped metrics on the same list. -/
theorem C9_property_counts_sum_to_total (sessions : List Session)
    (m : FunnelMetrics) (h : calculate_funnel_metrics sessions = some m) :
    property_session_sum sessions = m.total_sessions := by
  rw [calculate_funnel_metrics_some h, mkMetrics_total_sessions]
  unfold property_session_sum
  simp only [property_metrics_sessions_count]
  rw [List.sum_map_count_dedup_eq_length, List.length_map]

/-- C9 witness at a concrete input with several properties. -/
theorem C9_property_counts_sum_to_total_witness :
    property_session_sum tenSessionExample =
      (mkMetrics tenSessionExample).total_sessions :=
  C9_property_counts_sum_to_total tenSessionExample (mkMetrics tenSessionExample) rfl

/-! ### C10: completion does not suppress abandonment -/

/-- A session with both completion and abandonment flags set. -/
def completedAbandonedSession : Session :=
  sessionOf (some .room_selection) true true 10 0 3 "p1"

/-- C10: a session with both flags set and a known furthest stage increments
both totals, the abandonment bucket of its furthest stage, and the
range-filled entry and completion counts; on a concrete such input
`completed_sessions + abandoned_sessions` exceeds `total_sessions`. -/
theorem C10_completed_and_abandoned_both_counted :
    (∀ (c : FunnelCounts) (s : Session) (st : Stage),
      s.furthest_stage = some st → s.is_completed = true → s.is_abandoned = true →
        (processSession c s).total_completed = c.total_completed + 1 ∧
        (processSession c s).total_abandoned = c.total_abandoned + 1 ∧
        (processSession c s).stage_abandonments st = c.stage_abandonments st + 1 ∧
        ∀ t : Stage, stageIndex t ≤ stageIndex st →
          (processSession c s).stage_entries t = c.stage_entries t + 1 ∧
          (processSession c s).stage_completions t = c.stage_completions t + 1) ∧
    (mkMetrics [completedAbandonedSession]).total_sessions <
      (mkMetrics [completedAbandonedSession]).completed_sessions +
        (mkMetrics [completedAbandonedSession]).abandoned_sessions := by
  constructor
  · intro c s st hf hc ha
    refine ⟨?_, ?_, ?_, ?_⟩
    · rw [processSession_total_completed]; simp [hc]
    · rw [processSession_total_abandoned]; simp [ha]
    · rw [processSession_stage_abandonments]; simp [hf, ha]
    · intro t ht
      constructor
      · rw [processSession_stage_entries]; simp [hf, ht]
      · rw [processSession_stage_completions]; simp [hf, hc, ht]
  · decide

/-- C10 witness at a concrete accumulator and session. -/
theorem C10_completed_and_abandoned_both_counted_witness :
    (processSession initCounts completedAbandonedSession).total_completed =
      initCounts.total_completed + 1 ∧
    (processSession initCounts completedAbandonedSession).total_abandoned =
      initCounts.total_abandoned + 1 :=
  ⟨(C10_completed_and_abandoned_both_counted.1 initCounts completedAbandonedSession
      Stage.room_selection rfl rfl rfl).1,
   (C10_completed_and_abandoned_both_counted.1 initCounts completedAbandonedSession
      Stage.room_selection rfl rfl rfl).2.1⟩
